import Mathlib

/-!
# Verification of the `read-human` interactive-input library

Shallow embedding of `src/lib.rs` of the `read-human` crate.

Modelling conventions:
* Standard input is a finite list of lines (`List String`); reading a line
  consumes the head.  When the list is exhausted, a read behaves like Rust's
  `read_line` at end-of-stream: it leaves the buffer empty, so the line read
  is `""`.
* Standard output is a list of chunks, one per `print!`/`println!` call;
  a `println!` chunk ends in `"\n"`, a `print!` chunk does not.  `flush`
  writes nothing.
* Machine integers (`usize`, `u16`, `u32`) are `Nat` with explicit range
  checks where the Rust code's behaviour depends on the width.  The one
  subtraction `a - 1` in `read_choice` is parameterised by the arithmetic
  semantics: checked (debug builds, underflow panics) or wrapping
  (release builds, underflow wraps modulo `2^64`).
* `io::Result` error propagation is not modelled: the embedded stream never
  fails, matching runs of the program on a healthy stdin/stdout.
-/

/-- Rust's `char::is_whitespace`: the Unicode `White_Space` property. -/
def rustIsWhitespace (c : Char) : Bool :=
  (0x09 ≤ c.val && c.val ≤ 0x0D) || c.val = 0x20 || c.val = 0x85 || c.val = 0xA0 ||
  c.val = 0x1680 || (0x2000 ≤ c.val && c.val ≤ 0x200A) ||
  c.val = 0x2028 || c.val = 0x2029 || c.val = 0x202F || c.val = 0x205F || c.val = 0x3000

/-- Rust's `str::trim`: drop leading and trailing whitespace characters. -/
def rustTrim (s : String) : String :=
  String.mk ((((s.data.dropWhile rustIsWhitespace).reverse).dropWhile rustIsWhitespace).reverse)

/-- Numeric value of a list of ASCII decimal digits, most significant first. -/
def digitsVal (cs : List Char) : Nat :=
  cs.foldl (fun a c => a * 10 + (c.toNat - 48)) 0

/-- Rust's `str::parse` for an unsigned integer type of width `bits`
(`FromStr` for unsigned integers): an optional leading `+`, then one or
more ASCII digits; anything else, an empty digit string, or a value that
overflows the type is an error (`none`). -/
def parseUint (bits : Nat) (s : String) : Option Nat :=
  let cs := match s.data with
    | '+' :: rest => rest
    | other => other
  if cs ≠ [] ∧ cs.all Char.isDigit then
    let v := digitsVal cs
    if v < 2 ^ bits then some v else none
  else none

/-- `str::parse::<usize>` on a 64-bit target. -/
def parseUsize (s : String) : Option Nat := parseUint 64 s

/-- `str::parse::<u16>`. -/
def parseU16 (s : String) : Option Nat := parseUint 16 s

/-- `str::parse::<u32>`. -/
def parseU32 (s : String) : Option Nat := parseUint 32 s

/-- Result of one of the reading operations: the returned value, the
remaining input lines, and the output chunks written during the call. -/
abbrev ReadResult (α : Type) := α × List String × List String

/-- `read_string` from `src/lib.rs`: print `"{question}: "`, flush, read one
line, trim it; an empty trimmed line becomes `none`. -/
def read_string (question : String) (input : List String) :
    ReadResult (Option String) :=
  let line := input.headD ""
  let rest := input.tail
  let t := rustTrim line
  (if t = "" then none else some t, rest, [question ++ ": "])

/-- `read_string_noquestion` from `src/lib.rs`: like `read_string` but with
no prompt written. -/
def read_string_noquestion (input : List String) :
    ReadResult (Option String) :=
  let line := input.headD ""
  let rest := input.tail
  let t := rustTrim line
  (if t = "" then none else some t, rest, [])

/-- `read_string_nonempty` from `src/lib.rs`: loop calling `read_string`;
on `none` print `"Input must not be empty."` and retry.  On exhausted input
the real program re-reads `""` forever; the model returns `none` for that
divergent run. -/
def read_string_nonempty (question : String) :
    List String → Option (ReadResult String)
  | [] => none
  | l :: ls =>
    match read_string question (l :: ls) with
    | (some s, rest, out) => some (s, rest, out)
    | (none, _, out) =>
      (read_string_nonempty question ls).map
        (fun r => (r.1, r.2.1, out ++ ["Input must not be empty.\n"] ++ r.2.2))

/-- `read_custom` from `src/lib.rs`: loop calling `read_string`; on `none`
return `Ok(None)`; on a raw line that fails to parse, print
`"{raw} is not valid"` and retry.  The result is `none` only for the
divergent run where the input is exhausted while retrying (at end-of-stream
`read_string` yields `none`, so the real loop returns `Ok(None)` there,
modelled by the `[]` case). -/
def read_custom {α : Type} (parse : String → Option α) (question : String) :
    List String → Option (ReadResult (Option α))
  | [] => some (none, [], [question ++ ": "])
  | l :: ls =>
    match read_string question (l :: ls) with
    | (none, rest, out) => some (none, rest, out)
    | (some raw, rest, out) =>
      match parse raw with
      | some t => some (some t, rest, out)
      | none =>
        (read_custom parse question ls).map
          (fun r => (r.1, r.2.1, out ++ [raw ++ " is not valid\n"] ++ r.2.2))

/-- One step of `read_custom_nonempty` from `src/lib.rs`, with explicit
fuel: each loop iteration calls `read_string_nonempty`, then parses; on
parse failure it prints `"{raw} is not valid"` and retries.  Every
iteration consumes at least one input line, so fuel `input.length`
(supplied by `read_custom_nonempty` below) is never exhausted before the
input is; `none` models the divergent runs. -/
def read_custom_nonempty_fuel {α : Type} (parse : String → Option α)
    (question : String) : Nat → List String → Option (ReadResult α)
  | 0, _ => none
  | fuel + 1, input =>
    match read_string_nonempty question input with
    | none => none
    | some (raw, rest, out) =>
      match parse raw with
      | some t => some (t, rest, out)
      | none =>
        (read_custom_nonempty_fuel parse question fuel rest).map
          (fun r => (r.1, r.2.1, out ++ [raw ++ " is not valid\n"] ++ r.2.2))

/-- `read_custom_nonempty` from `src/lib.rs`. -/
def read_custom_nonempty {α : Type} (parse : String → Option α)
    (question : String) (input : List String) : Option (ReadResult α) :=
  read_custom_nonempty_fuel parse question input.length input

/-- Outcome of a `read_choice` call: a returned index (with the output
written and the input left unconsumed), the panic of the `assert!` on an
out-of-range default (which happens before any I/O, hence carries no
output and consumes no input), the panic of the debug-mode overflow check
on `a - 1` (after the menu has been printed), or divergence after the
input is exhausted (the recorded output is that of the first
end-of-stream iteration, which then repeats forever). -/
inductive ChoiceOutcome where
  | ok (idx : Nat) (output : List String) (rest : List String)
  | assertFail
  | panicked (output : List String)
  | diverges (output : List String)
deriving DecidableEq, Repr

/-- Prefix the output trace of an outcome. -/
def ChoiceOutcome.withOutput (pre : List String) : ChoiceOutcome → ChoiceOutcome
  | .ok i out rest => .ok i (pre ++ out) rest
  | .assertFail => .assertFail
  | .panicked out => .panicked (pre ++ out)
  | .diverges out => .diverges (pre ++ out)

/-- The `", {idx+1}: \"{option}\""` chunks for all options after the first;
`i` is the 0-based position of the head of the list. -/
def choiceMenuRest (i : Nat) : List String → List String
  | [] => []
  | o :: os => (", " ++ toString (i + 1) ++ ": \"" ++ o ++ "\"") :: choiceMenuRest (i + 1) os

/-- The output chunks of one menu display in `read_choice`:
`"{question} ["`, then `1: "opt1"`, `, 2: "opt2"`, …, then
`" (default: {d+1})"` if a default is given, then `"]: "`. -/
def choiceMenu (question : String) (options : List String)
    (default : Option Nat) : List String :=
  [question ++ " ["] ++
    (match options with
     | [] => []
     | o :: os => ("1: \"" ++ o ++ "\"") :: choiceMenuRest 1 os) ++
    (match default with
     | some d => [" (default: " ++ toString (d + 1) ++ ")"]
     | none => []) ++
    ["]: "]

/-- The subtraction `a - 1` on `usize` under debug-profile (checked)
arithmetic: underflow panics. -/
def checkedSub1 (a : Nat) : Option Nat :=
  if a = 0 then none else some (a - 1)

/-- The subtraction `a - 1` on 64-bit `usize` under release-profile
(wrapping) arithmetic: underflow wraps to `2 ^ 64 - 1`. -/
def wrappingSub1 (a : Nat) : Option Nat :=
  some (if a = 0 then 2 ^ 64 - 1 else a - 1)

/-- The `loop` of `read_choice` from `src/lib.rs`, parameterised by the
semantics of the subtraction `a - 1`.  Each iteration prints the menu,
reads and trims one line, returns the default on an empty answer when a
default exists, otherwise parses the answer as `usize` and either returns
`idx = a - 1` (when in range), or prints a diagnostic and retries. -/
def read_choice_loop (sub1 : Nat → Option Nat) (question : String)
    (options : List String) (default : Option Nat) :
    List String → ChoiceOutcome
  | [] =>
    let out := choiceMenu question options default
    match default with
    | some val => .ok val out []
    | none => .diverges (out ++ [" is not a valid option\n"])
  | l :: ls =>
    let out := choiceMenu question options default
    let ans := rustTrim l
    if ans = "" && default.isSome then
      .ok (default.getD 0) out ls
    else
      match parseUsize ans with
      | some a =>
        match sub1 a with
        | none => .panicked out
        | some idx =>
          if idx < options.length then
            .ok idx out ls
          else
            (read_choice_loop sub1 question options default ls).withOutput
              (out ++ [toString idx ++ " is not a valid option (too big)\n"])
      | none =>
        (read_choice_loop sub1 question options default ls).withOutput
          (out ++ [ans ++ " is not a valid option\n"])

/-- The condition of the `assert!` guarding `read_choice`:
`if let Some(val) = default { val < options.len() } else { true }`. -/
def defaultOk (options : List String) (default : Option Nat) : Bool :=
  match default with
  | some val => decide (val < options.length)
  | none => true

/-- `read_choice` from `src/lib.rs`, parameterised by the subtraction
semantics: first the `assert!` on the default (its failure precedes all
I/O), then the retry loop. -/
def read_choice_core (sub1 : Nat → Option Nat) (question : String)
    (options : List String) (default : Option Nat)
    (input : List String) : ChoiceOutcome :=
  if defaultOk options default then
    read_choice_loop sub1 question options default input
  else
    .assertFail

/-- `read_choice` under the default (debug) build profile, where the
subtraction `a - 1` is overflow-checked. -/
def read_choice (question : String) (options : List String)
    (default : Option Nat) (input : List String) : ChoiceOutcome :=
  read_choice_core checkedSub1 question options default input

/-- `read_choice` under the release build profile, where the subtraction
`a - 1` wraps modulo `2 ^ 64`. -/
def read_choice_release (question : String) (options : List String)
    (default : Option Nat) (input : List String) : ChoiceOutcome :=
  read_choice_core wrappingSub1 question options default input

/-- Unfolding lemma: `read_string_nonempty` on a line that trims to empty
prints the prompt and the diagnostic and continues on the remaining input. -/
theorem read_string_nonempty_cons_empty (question l : String) (ls : List String)
    (h : rustTrim l = "") :
    read_string_nonempty question (l :: ls) =
      (read_string_nonempty question ls).map
        (fun r => (r.1, r.2.1,
          [question ++ ": ", "Input must not be empty.\n"] ++ r.2.2)) := by
  simp [read_string_nonempty, read_string, h]

/-- Unfolding lemma: `read_string_nonempty` on a line that trims to a
non-empty string returns it at once. -/
theorem read_string_nonempty_cons_some (question l : String) (ls : List String)
    (h : rustTrim l ≠ "") :
    read_string_nonempty question (l :: ls) =
      some (rustTrim l, ls, [question ++ ": "]) := by
  simp [read_string_nonempty, read_string, h]

/-- C1: for every input line `s`, `read_string` returns `none` iff trimming
`s` (whitespace including the line terminator) yields the empty string, and
otherwise returns `some (trim s)`. -/
theorem c1_read_string_none_iff_trim_empty (question s : String)
    (rest : List String) :
    ((read_string question (s :: rest)).1 = none ↔ rustTrim s = "") ∧
    (rustTrim s ≠ "" →
      (read_string question (s :: rest)).1 = some (rustTrim s)) := by
  by_cases h : rustTrim s = "" <;> simp [read_string, h]

theorem c1_read_string_none_iff_trim_empty_witness :
    rustTrim "  hi " ≠ "" ∧
    (read_string "q" ["  hi "]).1 = some (rustTrim "  hi ") :=
  ⟨by decide, (c1_read_string_none_iff_trim_empty "q" "  hi " []).2 (by decide)⟩

/-- C2: at the failing input line `"0"` the claim fails on the code.  The
numeral parses to `n = 0` and `idx = n - 1` is computed by an unguarded
`usize` subtraction: under the checked (debug) arithmetic of the default
build it panics after printing the menu, and under release arithmetic it
wraps to `2 ^ 64 - 1`, which is then reported with the too-big diagnostic
before retrying. -/
theorem c2_read_choice_zero_underflow :
    read_choice "q" ["a"] none ["0"] = .panicked (choiceMenu "q" ["a"] none) ∧
    read_choice_release "q" ["a"] none ["0", "1"] =
      .ok 0 (choiceMenu "q" ["a"] none ++
        ["18446744073709551615 is not a valid option (too big)\n"] ++
        choiceMenu "q" ["a"] none) [] := by
  constructor <;> decide

/-- C3: if the default index is out of range, `read_choice` fails the
`assert!` before doing any I/O (the `assertFail` outcome carries no output
and consumes no input); if it is in range, the assertion passes and the
call proceeds to the read loop. -/
theorem c3_read_choice_default_assert (question : String)
    (options : List String) (d : Nat) (input : List String) :
    (options.length ≤ d →
      read_choice question options (some d) input = .assertFail) ∧
    (d < options.length →
      read_choice question options (some d) input =
        read_choice_loop checkedSub1 question options (some d) input) := by
  constructor <;> intro h
  · have h' : ¬ d < options.length := by omega
    simp [read_choice, read_choice_core, defaultOk, h']
  · simp [read_choice, read_choice_core, defaultOk, h]

theorem c3_read_choice_default_assert_witness :
    (3 ≤ 5 ∧ read_choice "q" ["a", "b", "c"] (some 5) [] = .assertFail) ∧
    (0 < 3 ∧ read_choice "q" ["a", "b", "c"] (some 0) [""] =
      read_choice_loop checkedSub1 "q" ["a", "b", "c"] (some 0) [""]) :=
  ⟨⟨by decide, (c3_read_choice_default_assert "q" ["a", "b", "c"] 5 []).1
      (by decide)⟩,
   ⟨by decide, (c3_read_choice_default_assert "q" ["a", "b", "c"] 0 [""]).2
      (by decide)⟩⟩

/-- C4: when the trimmed input line parses as a positive integer `n`, the
selection index is `idx = n - 1`: if `idx` is in range `read_choice`
returns it, consuming only that line; otherwise it prints
`"{idx} is not a valid option (too big)"` and retries on the remaining
input. -/
theorem c4_read_choice_numeric (question : String) (options : List String)
    (l : String) (rest : List String) (n : Nat)
    (hp : parseUsize (rustTrim l) = some n) (hn : 1 ≤ n) :
    (n - 1 < options.length →
      read_choice question options none (l :: rest) =
        .ok (n - 1) (choiceMenu question options none) rest) ∧
    (options.length ≤ n - 1 →
      read_choice question options none (l :: rest) =
        (read_choice question options none rest).withOutput
          (choiceMenu question options none ++
            [toString (n - 1) ++ " is not a valid option (too big)\n"])) := by
  have hn0 : n ≠ 0 := by omega
  have hsub : checkedSub1 n = some (n - 1) := by simp [checkedSub1, hn0]
  constructor <;> intro h
  · simp [read_choice, read_choice_core, defaultOk, read_choice_loop,
      hp, hsub, h]
  · have h' : ¬ n - 1 < options.length := by omega
    simp [read_choice, read_choice_core, defaultOk, read_choice_loop,
      hp, hsub, h']

theorem c4_read_choice_numeric_witness :
    parseUsize (rustTrim "2") = some 2 ∧
    read_choice "q" ["male", "female", "other"] none ["2"] =
      .ok 1 (choiceMenu "q" ["male", "female", "other"] none) [] ∧
    read_choice "q" ["male", "female", "other"] none ["5", "1"] =
      (read_choice "q" ["male", "female", "other"] none ["1"]).withOutput
        (choiceMenu "q" ["male", "female", "other"] none ++
          ["4 is not a valid option (too big)\n"]) ∧
    read_choice "q" ["male", "female", "other"] none ["5", "1"] =
      .ok 0 (choiceMenu "q" ["male", "female", "other"] none ++
        ["4 is not a valid option (too big)\n"] ++
        choiceMenu "q" ["male", "female", "other"] none) [] := by
  refine ⟨by decide, ?_, ?_, by decide⟩
  · exact (c4_read_choice_numeric "q" ["male", "female", "other"] "2" [] 2
      (by decide) (by decide)).1 (by decide)
  · rw [(c4_read_choice_numeric "q" ["male", "female", "other"] "5" ["1"] 5
      (by decide) (by decide)).2 (by decide)]
    decide

/-- C5: with an in-range default `d`, a first line that trims to empty makes
`read_choice` return `d` at once, consuming exactly that one line. -/
theorem c5_read_choice_default_on_empty (question : String)
    (options : List String) (d : Nat) (l : String) (rest : List String)
    (hd : d < options.length) (hl : rustTrim l = "") :
    read_choice question options (some d) (l :: rest) =
      .ok d (choiceMenu question options (some d)) rest := by
  simp [read_choice, read_choice_core, defaultOk, hd, read_choice_loop, hl]

theorem c5_read_choice_default_on_empty_witness :
    0 < 2 ∧ rustTrim "" = "" ∧
    read_choice "q" ["a", "b"] (some 0) ["", "zzz"] =
      .ok 0 (choiceMenu "q" ["a", "b"] (some 0)) ["zzz"] :=
  ⟨by decide, rfl,
    c5_read_choice_default_on_empty "q" ["a", "b"] 0 "" ["zzz"]
      (by decide) rfl⟩

/-- C6: if some line of the input trims to a non-empty string, then
`read_string_nonempty` returns the trimmed first such line (which is hence
non-empty) with the rest of the input untouched, having printed the prompt
and the `"Input must not be empty."` diagnostic once for every preceding
line that trimmed to empty, and one final prompt. -/
theorem c6_read_string_nonempty_first (question : String) :
    ∀ (input : List String) (l : String) (rest : List String),
      input.dropWhile (fun s => rustTrim s == "") = l :: rest →
      read_string_nonempty question input =
        some (rustTrim l, rest,
          (input.takeWhile (fun s => rustTrim s == "")).foldr
            (fun _ acc => [question ++ ": ", "Input must not be empty.\n"] ++ acc)
            [question ++ ": "]) ∧
      rustTrim l ≠ "" := by
  intro input
  induction input with
  | nil => intro l rest h; simp at h
  | cons a as ih =>
    intro l rest h
    by_cases ha : rustTrim a = ""
    · rw [List.dropWhile_cons_of_pos (by simp [ha])] at h
      obtain ⟨h1, h2⟩ := ih l rest h
      refine ⟨?_, h2⟩
      rw [read_string_nonempty_cons_empty question a as ha, h1,
        List.takeWhile_cons_of_pos (by simp [ha])]
      simp
    · rw [List.dropWhile_cons_of_neg (by simp [ha])] at h
      injection h with h1 h2
      subst h1; subst h2
      refine ⟨?_, ha⟩
      rw [read_string_nonempty_cons_some question a as ha,
        List.takeWhile_cons_of_neg (by simp [ha])]
      simp

theorem c6_read_string_nonempty_first_witness :
    read_string_nonempty "q" ["", " ", " hi ", "z"] =
      some (rustTrim " hi ", ["z"],
        ((["", " ", " hi ", "z"].takeWhile (fun s => rustTrim s == "")).foldr
          (fun _ acc => ["q: ", "Input must not be empty.\n"] ++ acc)
          ["q: "])) ∧
    rustTrim " hi " ≠ "" :=
  c6_read_string_nonempty_first "q" ["", " ", " hi ", "z"] " hi " ["z"]
    (by decide)

/-- C7: a first line that trims to empty makes `read_custom` return `none`
at once — no diagnostic, no retry, remaining input untouched; only a
non-empty line that fails to parse produces the `"{raw} is not valid"`
diagnostic and a retry on the remaining input. -/
theorem c7_read_custom_empty_skip {α : Type} (parse : String → Option α)
    (question : String) (l : String) (rest : List String) :
    (rustTrim l = "" →
      read_custom parse question (l :: rest) =
        some (none, rest, [question ++ ": "])) ∧
    (rustTrim l ≠ "" → parse (rustTrim l) = none →
      read_custom parse question (l :: rest) =
        (read_custom parse question rest).map
          (fun r => (r.1, r.2.1,
            [question ++ ": ", rustTrim l ++ " is not valid\n"] ++ r.2.2))) := by
  constructor
  · intro h; simp [read_custom, read_string, h]
  · intro h hp; simp [read_custom, read_string, h, hp]

theorem c7_read_custom_empty_skip_witness :
    rustTrim "" = "" ∧
    read_custom parseU32 "q" ["", "junk"] = some (none, ["junk"], ["q: "]) :=
  ⟨rfl, (c7_read_custom_empty_skip parseU32 "q" "" ["junk"]).1 rfl⟩

/-- C8: `read_custom_nonempty` retries on a non-empty line that fails to
parse, printing `"{raw} is not valid"` with the rejected trimmed text, and
returns the parsed value of a non-empty line that parses. -/
theorem c8_read_custom_nonempty_retry {α : Type} (parse : String → Option α)
    (question : String) (l : String) (rest : List String)
    (hl : rustTrim l ≠ "") :
    (parse (rustTrim l) = none →
      read_custom_nonempty parse question (l :: rest) =
        (read_custom_nonempty parse question rest).map
          (fun r => (r.1, r.2.1,
            [question ++ ": ", rustTrim l ++ " is not valid\n"] ++ r.2.2))) ∧
    (∀ t, parse (rustTrim l) = some t →
      read_custom_nonempty parse question (l :: rest) =
        some (t, rest, [question ++ ": "])) := by
  constructor
  · intro hp
    simp [read_custom_nonempty, read_custom_nonempty_fuel,
      read_string_nonempty_cons_some question l rest hl, hp]
  · intro t hp
    simp [read_custom_nonempty, read_custom_nonempty_fuel,
      read_string_nonempty_cons_some question l rest hl, hp]

theorem c8_read_custom_nonempty_retry_witness :
    rustTrim "abc" ≠ "" ∧ parseU16 (rustTrim "abc") = none ∧
    read_custom_nonempty parseU16 "q" ["abc", "42"] =
      (read_custom_nonempty parseU16 "q" ["42"]).map
        (fun r => (r.1, r.2.1,
          ["q: ", rustTrim "abc" ++ " is not valid\n"] ++ r.2.2)) ∧
    read_custom_nonempty parseU16 "q" ["abc", "42"] =
      some (42, [], ["q: ", "abc is not valid\n", "q: "]) :=
  ⟨by decide, by decide,
    (c8_read_custom_nonempty_retry parseU16 "q" "abc" ["42"] (by decide)).1
      (by decide),
    by decide⟩

/-- C9: on every input stream, `read_string_noquestion` returns the same
value and leaves the same remaining input as `read_string`; the two differ
only in the output, where `read_string` writes the `"{question}: "` prompt
and `read_string_noquestion` writes nothing. -/
theorem c9_read_string_noquestion_refines (question : String)
    (input : List String) :
    (read_string_noquestion input).1 = (read_string question input).1 ∧
    (read_string_noquestion input).2.1 = (read_string question input).2.1 ∧
    (read_string question input).2.2 = [question ++ ": "] ∧
    (read_string_noquestion input).2.2 = [] := by
  simp [read_string, read_string_noquestion]

/-- C10: with no default, a line that trims to empty is not accepted: the
empty string fails the integer parse, so `read_choice` prints
`" is not a valid option"` (the diagnostic with the empty answer
interpolated) and retries — the next iteration reprints the full menu. -/
theorem c10_read_choice_empty_no_default (question : String)
    (options : List String) (l : String) (rest : List String)
    (hl : rustTrim l = "") :
    read_choice question options none (l :: rest) =
      (read_choice question options none rest).withOutput
        (choiceMenu question options none ++ [" is not a valid option\n"]) := by
  have hp : parseUsize "" = none := by decide
  have he : ("" : String) ++ " is not a valid option\n" =
      " is not a valid option\n" := rfl
  simp [read_choice, read_choice_core, defaultOk, read_choice_loop, hl, hp, he]

theorem c10_read_choice_empty_no_default_witness :
    rustTrim "  " = "" ∧
    read_choice "q" ["a"] none ["  ", "1"] =
      (read_choice "q" ["a"] none ["1"]).withOutput
        (choiceMenu "q" ["a"] none ++ [" is not a valid option\n"]) :=
  ⟨by decide,
    c10_read_choice_empty_no_default "q" ["a"] "  " ["1"] (by decide)⟩
